import Mathlib

/-!
Shallow embedding of the wallet-sweep monitor (`bot.py`).

The program polls a fixed set of wallets; for each wallet per cycle it
fetches the current balance, compares it against the last tracked balance
and a minimum threshold, and on a detected deposit calls `transfer_funds`,
which re-fetches the balance, subtracts a 5000-lamport fee reserve and
submits a transfer to the fixed receiver.  All adapter interactions
(balance fetches, transaction send, confirmation) are modelled by an
explicit per-wallet environment: `none` / `false` means the corresponding
call raised an exception.  Balances are integers (`Int`), matching Python
integer arithmetic where `current_balance - 5000` may be negative.
-/

/-- Observable result of one call to `transfer_funds`:
either an exception occurred before the amount was computed
(`innerError`), or the computed amount was non-positive and the
"Insufficient balance ... to cover fees" message was printed
(`insufficientForFee`), or `send_transaction` was invoked with the given
amount towards the given destination, `success` recording whether both
`send_transaction` and `confirm_transaction` returned without raising. -/
inductive TransferOutcome where
  | innerError : TransferOutcome
  | insufficientForFee : TransferOutcome
  | sent (amount : Int) (dest : String) (success : Bool) : TransferOutcome
deriving DecidableEq, Repr

/-- Results of the adapter calls made while evaluating one wallet in one
cycle: `outerFetch` is `client.get_balance` in `check_and_transfer`
(`none` = the call, or the preceding `Pubkey.from_string`, raised);
`innerFetch` is the second `client.get_balance` inside `transfer_funds`
(`none` = any exception up to and including that fetch); `sendOk` and
`confirmOk` record whether `send_transaction` and `confirm_transaction`
return without raising. -/
structure WalletEnv where
  outerFetch : Option Int
  innerFetch : Option Int
  sendOk : Bool
  confirmOk : Bool
deriving DecidableEq, Repr

/-- The fixed fee reserve, hardcoded as `5000` lamports in `transfer_funds`. -/
def fee_reserve : Int := 5000

/-- Embedding of `transfer_funds` (bot.py lines 68-99).  It re-fetches the
sender balance, computes `lamports_to_transfer = current_balance - 5000`,
returns early when that is non-positive, and otherwise sends and confirms
a transfer of exactly that amount to `recv`; every exception is caught
inside the function and mapped to a `False` result. -/
def transfer_funds (recv : String) (env : WalletEnv) : TransferOutcome :=
  match env.innerFetch with
  | none => .innerError
  | some current_balance =>
    let lamports_to_transfer := current_balance - fee_reserve
    if lamports_to_transfer ≤ 0 then .insufficientForFee
    else .sent lamports_to_transfer recv (env.sendOk && env.confirmOk)

/-- The Boolean value `transfer_funds` returns to its caller:
`True` exactly when the transfer was sent and confirmed. -/
def transferResult : TransferOutcome → Bool
  | .sent _ _ true => true
  | _ => false

/-- The amount passed to `send_transaction`, when that call was made. -/
def submittedAmount : TransferOutcome → Option Int
  | .sent a _ _ => some a
  | _ => none

/-- The destination passed to `send_transaction`, when that call was made. -/
def submittedDest : TransferOutcome → Option String
  | .sent _ d _ => some d
  | _ => none

/-- Observable per-wallet outcome of one iteration of the loop body of
`check_and_transfer`: the wallet was skipped because an exception reached
the per-wallet `except` handler (`fetchError`), or the "No new deposits"
branch ran (`noDeposit`), or a deposit was detected and `transfer_funds`
ran with the recorded result (`deposit`). -/
inductive SweepOutcome where
  | fetchError : SweepOutcome
  | noDeposit : SweepOutcome
  | deposit (r : TransferOutcome) : SweepOutcome
deriving DecidableEq, Repr

/-- Whether a transfer was considered at all, i.e. `transfer_funds` was
called for this wallet this cycle. -/
def transferConsidered : SweepOutcome → Bool
  | .deposit _ => true
  | _ => false

/-- The amount submitted to the adapter during this wallet evaluation,
if any. -/
def outcomeSubmitted : SweepOutcome → Option Int
  | .deposit r => submittedAmount r
  | _ => none

/-- The balance tracker `last_balances`: a Python dict from wallet address
to last observed balance, modelled as an association list with at most
one entry per key. -/
abbrev Dict := List (String × Int)

/-- Dict read, `m[a]`: `none` models a `KeyError`. -/
def dictGet : Dict → String → Option Int
  | [], _ => none
  | (k, v) :: rest, a => if k = a then some v else dictGet rest a

/-- Dict write, `m[a] = v`: replaces the entry when the key is present,
appends it otherwise (Python dict assignment semantics). -/
def dictSet : Dict → String → Int → Dict
  | [], a, v => [(a, v)]
  | (k, w) :: rest, a, v =>
    if k = a then (a, v) :: rest else (k, w) :: dictSet rest a v

/-- The key list of the tracker dict. -/
def dictKeys (m : Dict) : List String := m.map Prod.fst

/-- Embedding of `last_balances = {addr: 0 for addr in wallets}`
(bot.py line 65). -/
def init_balances (addrs : List String) : Dict := addrs.map (fun a => (a, 0))

/-- Embedding of one iteration of the per-wallet loop body of
`check_and_transfer` (bot.py lines 104-116): fetch the current balance
(an exception here, or a `KeyError` reading `last_balances`, lands in the
`except` handler, leaving the tracker untouched); if
`current_balance > last_balances[addr]` and
`current_balance >= minimum_lamports`, call `transfer_funds` and on
success assign `last_balances[addr] = current_balance`; in every
non-exception path finally assign `last_balances[addr] = current_balance`
unconditionally.  Returns the tracker after this wallet and the wallet's
observable outcome. -/
def check_wallet (minimum_lamports : Int) (recv : String) (last_balances : Dict)
    (sender_address : String) (env : WalletEnv) : Dict × SweepOutcome :=
  match env.outerFetch with
  | none => (last_balances, .fetchError)
  | some current_balance =>
    match dictGet last_balances sender_address with
    | none => (last_balances, .fetchError)
    | some last =>
      if last < current_balance ∧ minimum_lamports ≤ current_balance then
        let r := transfer_funds recv env
        let t1 :=
          if transferResult r then dictSet last_balances sender_address current_balance
          else last_balances
        (dictSet t1 sender_address current_balance, .deposit r)
      else
        (dictSet last_balances sender_address current_balance, .noDeposit)

/-- Embedding of `check_and_transfer` (bot.py lines 102-116): one poll
cycle over the wallet registry, threading the tracker through the
per-wallet evaluations and collecting each wallet's outcome. -/
def check_and_transfer (minimum_lamports : Int) (recv : String) :
    Dict → List (String × WalletEnv) → Dict × List (String × SweepOutcome)
  | t, [] => (t, [])
  | t, (a, e) :: ws =>
    let p := check_wallet minimum_lamports recv t a e
    let q := check_and_transfer minimum_lamports recv p.1 ws
    (q.1, (a, p.2) :: q.2)

/-- Embedding of the main loop (bot.py lines 119-124) over a finite list
of cycles: the tracker after running `check_and_transfer` once per cycle
environment. -/
def run_cycles (minimum_lamports : Int) (recv : String) :
    Dict → List (List (String × WalletEnv)) → Dict
  | t, [] => t
  | t, c :: cs =>
    run_cycles minimum_lamports recv (check_and_transfer minimum_lamports recv t c).1 cs

/-- Variant of `check_wallet` with the assignment in the
`if success:` branch (bot.py line 111) removed, keeping only the
unconditional post-evaluation assignment (bot.py line 114); used to state
the redundancy of that branch assignment. -/
def check_wallet_single_update (minimum_lamports : Int) (recv : String)
    (last_balances : Dict) (sender_address : String) (env : WalletEnv) :
    Dict × SweepOutcome :=
  match env.outerFetch with
  | none => (last_balances, .fetchError)
  | some current_balance =>
    match dictGet last_balances sender_address with
    | none => (last_balances, .fetchError)
    | some last =>
      if last < current_balance ∧ minimum_lamports ≤ current_balance then
        (dictSet last_balances sender_address current_balance,
          .deposit (transfer_funds recv env))
      else
        (dictSet last_balances sender_address current_balance, .noDeposit)

/-- `check_and_transfer` built on `check_wallet_single_update`. -/
def check_and_transfer_single_update (minimum_lamports : Int) (recv : String) :
    Dict → List (String × WalletEnv) → Dict × List (String × SweepOutcome)
  | t, [] => (t, [])
  | t, (a, e) :: ws =>
    let p := check_wallet_single_update minimum_lamports recv t a e
    let q := check_and_transfer_single_update minimum_lamports recv p.1 ws
    (q.1, (a, p.2) :: q.2)

/-- The outcomes recorded for a given address during one cycle. -/
def outcomesFor (a : String) (l : List (String × SweepOutcome)) : List SweepOutcome :=
  (l.filter (fun p => p.1 == a)).map Prod.snd

/-- The destination submitted to the adapter during this wallet
evaluation, if any. -/
def outcomeDest : SweepOutcome → Option String
  | .deposit r => submittedDest r
  | _ => none

theorem dictGet_dictSet_self (t : Dict) (k : String) (v : Int) :
    dictGet (dictSet t k v) k = some v := by
  induction t with
  | nil => simp [dictSet, dictGet]
  | cons p rest ih =>
    obtain ⟨a, w⟩ := p
    by_cases h : a = k
    · simp [dictSet, h, dictGet]
    · simp [dictSet, h, dictGet, ih]

theorem dictGet_dictSet_ne (t : Dict) {k j : String} (h : k ≠ j) (v : Int) :
    dictGet (dictSet t k v) j = dictGet t j := by
  induction t with
  | nil => simp [dictSet, dictGet, h]
  | cons p rest ih =>
    obtain ⟨a, w⟩ := p
    by_cases ha : a = k
    · subst ha
      simp [dictSet, dictGet, h]
    · simp [dictSet, ha, dictGet, ih]

theorem dictKeys_dictSet (t : Dict) {k : String} {w : Int} (h : dictGet t k = some w)
    (v : Int) : dictKeys (dictSet t k v) = dictKeys t := by
  induction t with
  | nil => simp [dictGet] at h
  | cons p rest ih =>
    obtain ⟨a, u⟩ := p
    by_cases ha : a = k
    · simp [dictSet, ha, dictKeys]
    · simp [dictGet, ha] at h
      simp [dictSet, ha, dictKeys] at ih ⊢
      exact ih h

theorem dictSet_dictSet_same (t : Dict) (k : String) (v : Int) :
    dictSet (dictSet t k v) k v = dictSet t k v := by
  induction t with
  | nil => simp [dictSet]
  | cons p rest ih =>
    obtain ⟨a, w⟩ := p
    by_cases ha : a = k
    · simp [dictSet, ha]
    · simp [dictSet, ha, ih]

theorem check_wallet_eq_fetchError (m : Int) (r : String) (t : Dict) (a : String)
    {env : WalletEnv} (houter : env.outerFetch = none) :
    check_wallet m r t a env = (t, .fetchError) := by
  simp [check_wallet, houter]

theorem check_wallet_eq_keyError (m : Int) (r : String) {t : Dict} {a : String}
    {env : WalletEnv} {c : Int} (houter : env.outerFetch = some c)
    (hget : dictGet t a = none) :
    check_wallet m r t a env = (t, .fetchError) := by
  simp [check_wallet, houter, hget]

theorem check_wallet_eq_deposit (m : Int) (r : String) {t : Dict} {a : String}
    {env : WalletEnv} {c last : Int} (houter : env.outerFetch = some c)
    (hget : dictGet t a = some last) (hcond : last < c ∧ m ≤ c) :
    check_wallet m r t a env =
      (dictSet (if transferResult (transfer_funds r env) then dictSet t a c else t) a c,
        .deposit (transfer_funds r env)) := by
  simp [check_wallet, houter, hget, hcond]

theorem check_wallet_eq_noDeposit (m : Int) (r : String) {t : Dict} {a : String}
    {env : WalletEnv} {c last : Int} (houter : env.outerFetch = some c)
    (hget : dictGet t a = some last) (hcond : ¬(last < c ∧ m ≤ c)) :
    check_wallet m r t a env = (dictSet t a c, .noDeposit) := by
  simp [check_wallet, houter, hget, hcond]

/-- C1: a deposit is detected, and `transfer_funds` considered, exactly
when the fetched balance strictly exceeds the tracked balance and is at
least the minimum threshold; in particular a balance that rose but stays
below the threshold produces the no-deposit outcome with no submission. -/
theorem c1_deposit_detection_iff (m : Int) (r : String) (t : Dict) (a : String)
    (env : WalletEnv) (current last : Int)
    (houter : env.outerFetch = some current) (hget : dictGet t a = some last) :
    (transferConsidered (check_wallet m r t a env).2 = true ↔
      last < current ∧ m ≤ current) ∧
    (last < current → current < m →
      (check_wallet m r t a env).2 = .noDeposit ∧
        outcomeSubmitted (check_wallet m r t a env).2 = none) := by
  by_cases hcond : last < current ∧ m ≤ current
  · rw [check_wallet_eq_deposit m r houter hget hcond]
    refine ⟨by simpa [transferConsidered] using hcond, ?_⟩
    intro _ hlt
    exact absurd hcond.2 (not_le.mpr hlt)
  · rw [check_wallet_eq_noDeposit m r houter hget hcond]
    exact ⟨by simpa [transferConsidered] using hcond,
      fun _ _ => ⟨rfl, rfl⟩⟩

theorem c1_witness :
    (some (2000000 : Int) : Option Int) = some 2000000 ∧
    dictGet [("w", (0 : Int))] "w" = some 0 ∧
    ((transferConsidered (check_wallet 1000000 "rcv" [("w", 0)] "w"
        ⟨some 2000000, some 2000000, true, true⟩).2 = true ↔
      (0 : Int) < 2000000 ∧ (1000000 : Int) ≤ 2000000) ∧
    ((0 : Int) < 2000000 → (2000000 : Int) < 1000000 →
      (check_wallet 1000000 "rcv" [("w", 0)] "w"
        ⟨some 2000000, some 2000000, true, true⟩).2 = .noDeposit ∧
        outcomeSubmitted (check_wallet 1000000 "rcv" [("w", 0)] "w"
          ⟨some 2000000, some 2000000, true, true⟩).2 = none)) :=
  ⟨rfl, by decide,
    c1_deposit_detection_iff 1000000 "rcv" [("w", 0)] "w"
      ⟨some 2000000, some 2000000, true, true⟩ 2000000 0 rfl (by decide)⟩

/-- C2: whenever the outer balance fetch succeeds and the wallet has a
tracked entry, that entry equals the freshly fetched balance at the end
of the wallet's evaluation, in every branch (no deposit, failed transfer,
successful transfer). -/
theorem c2_tracker_always_updated (m : Int) (r : String) (t : Dict) (a : String)
    (env : WalletEnv) (current last : Int)
    (houter : env.outerFetch = some current) (hget : dictGet t a = some last) :
    dictGet (check_wallet m r t a env).1 a = some current := by
  by_cases hcond : last < current ∧ m ≤ current
  · rw [check_wallet_eq_deposit m r houter hget hcond]
    exact dictGet_dictSet_self _ a current
  · rw [check_wallet_eq_noDeposit m r houter hget hcond]
    exact dictGet_dictSet_self t a current

theorem c2_witness :
    (some (1995000 : Int) : Option Int) = some 1995000 ∧
    dictGet [("w", (400 : Int))] "w" = some 400 ∧
    dictGet (check_wallet 1000000 "rcv" [("w", 400)] "w"
      ⟨some 1995000, some 1995000, false, true⟩).1 "w" = some 1995000 :=
  ⟨rfl, by decide,
    c2_tracker_always_updated 1000000 "rcv" [("w", 400)] "w"
      ⟨some 1995000, some 1995000, false, true⟩ 1995000 400 rfl (by decide)⟩

/-- C6: when the balance fetch for a wallet fails, that wallet is skipped
for the cycle: the tracker is returned unchanged and no transfer is
considered or submitted. -/
theorem c6_fetch_failure_skips (m : Int) (r : String) (t : Dict) (a : String)
    (env : WalletEnv) (houter : env.outerFetch = none) :
    (check_wallet m r t a env).1 = t ∧
    (check_wallet m r t a env).2 = .fetchError ∧
    transferConsidered (check_wallet m r t a env).2 = false ∧
    outcomeSubmitted (check_wallet m r t a env).2 = none := by
  rw [check_wallet_eq_fetchError m r t a houter]
  exact ⟨rfl, rfl, rfl, rfl⟩

theorem c6_witness :
    (WalletEnv.mk none (some 7) true true).outerFetch = none ∧
    ((check_wallet 1000000 "rcv" [("w", (5 : Int))] "w" ⟨none, some 7, true, true⟩).1 =
      [("w", (5 : Int))] ∧
    (check_wallet 1000000 "rcv" [("w", (5 : Int))] "w" ⟨none, some 7, true, true⟩).2 =
      .fetchError ∧
    transferConsidered (check_wallet 1000000 "rcv" [("w", (5 : Int))] "w"
      ⟨none, some 7, true, true⟩).2 = false ∧
    outcomeSubmitted (check_wallet 1000000 "rcv" [("w", (5 : Int))] "w"
      ⟨none, some 7, true, true⟩).2 = none) :=
  ⟨rfl, c6_fetch_failure_skips 1000000 "rcv" [("w", 5)] "w" ⟨none, some 7, true, true⟩ rfl⟩

/-- C7: two consecutive evaluations of the same wallet in which the
fetched balance equals the tracked balance both yield the no-deposit
outcome and submit nothing (idempotence, no duplicate transfer). -/
theorem c7_idempotent_unchanged_balance (m : Int) (r : String) (t : Dict)
    (a : String) (e1 e2 : WalletEnv) (b : Int)
    (hget : dictGet t a = some b)
    (h1 : e1.outerFetch = some b) (h2 : e2.outerFetch = some b) :
    (check_wallet m r t a e1).2 = .noDeposit ∧
    (check_wallet m r (check_wallet m r t a e1).1 a e2).2 = .noDeposit ∧
    outcomeSubmitted (check_wallet m r t a e1).2 = none ∧
    outcomeSubmitted (check_wallet m r (check_wallet m r t a e1).1 a e2).2 = none := by
  have hnc : ¬(b < b ∧ m ≤ b) := fun h => lt_irrefl b h.1
  rw [check_wallet_eq_noDeposit m r h1 hget hnc]
  have hget2 : dictGet (dictSet t a b) a = some b := dictGet_dictSet_self t a b
  rw [check_wallet_eq_noDeposit m r h2 hget2 hnc]
  exact ⟨rfl, rfl, rfl, rfl⟩

/-- C3 counterexample: with tracked balance 0, threshold 1000000,
detection-time fetch 2000000 and transfer-time re-fetch 3000000, a
deposit is detected, the detection-time transferable amount 1995000 is
positive, yet the adapter is invoked with 2995000: the amount is computed
from the balance re-fetched inside `transfer_funds`, not from the
detection-time balance, and here exceeds it. -/
theorem c3_counterexample :
    (0 : Int) < 2000000 ∧ (1000000 : Int) ≤ 2000000 ∧
    0 < (2000000 : Int) - fee_reserve ∧
    transferConsidered (check_wallet 1000000 "rcv" [("w", 0)] "w"
      ⟨some 2000000, some 3000000, true, true⟩).2 = true ∧
    outcomeSubmitted (check_wallet 1000000 "rcv" [("w", 0)] "w"
      ⟨some 2000000, some 3000000, true, true⟩).2 = some 2995000 ∧
    outcomeSubmitted (check_wallet 1000000 "rcv" [("w", 0)] "w"
      ⟨some 2000000, some 3000000, true, true⟩).2 ≠
        some ((2000000 : Int) - fee_reserve) := by
  refine ⟨by norm_num, by norm_num, by norm_num [fee_reserve], rfl, rfl, ?_⟩
  simp [check_wallet, dictGet, transfer_funds, fee_reserve, outcomeSubmitted,
    submittedAmount, transferResult]

/-- C3 amended: whenever a deposit is detected and the balance re-fetched
inside `transfer_funds` exceeds the fee reserve, the adapter is invoked
with exactly that re-fetched balance minus the 5000-lamport fee reserve,
addressed to the fixed destination; the detection-time balance plays no
role in the amount. -/
theorem c3_amended_submitted_amount (m : Int) (r : String) (t : Dict) (a : String)
    (env : WalletEnv) (current last bal : Int)
    (houter : env.outerFetch = some current) (hget : dictGet t a = some last)
    (hdep : last < current ∧ m ≤ current)
    (hinner : env.innerFetch = some bal) (hpos : 0 < bal - fee_reserve) :
    outcomeSubmitted (check_wallet m r t a env).2 = some (bal - fee_reserve) ∧
    outcomeDest (check_wallet m r t a env).2 = some r := by
  rw [check_wallet_eq_deposit m r houter hget hdep]
  have hnle : ¬(bal - fee_reserve ≤ 0) := not_le.mpr hpos
  simp [outcomeSubmitted, outcomeDest, transfer_funds, hinner, hnle,
    submittedAmount, submittedDest]

theorem c3_amended_witness :
    (some (2000000 : Int) : Option Int) = some 2000000 ∧
    dictGet [("w", (0 : Int))] "w" = some 0 ∧
    ((0 : Int) < 2000000 ∧ (1000000 : Int) ≤ 2000000) ∧
    (some (3000000 : Int) : Option Int) = some 3000000 ∧
    (0 : Int) < 3000000 - fee_reserve ∧
    (outcomeSubmitted (check_wallet 1000000 "rcv" [("w", 0)] "w"
      ⟨some 2000000, some 3000000, true, true⟩).2 = some (3000000 - fee_reserve) ∧
    outcomeDest (check_wallet 1000000 "rcv" [("w", 0)] "w"
      ⟨some 2000000, some 3000000, true, true⟩).2 = some "rcv") :=
  ⟨rfl, by decide, by constructor <;> norm_num, rfl, by norm_num [fee_reserve],
    c3_amended_submitted_amount 1000000 "rcv" [("w", 0)] "w"
      ⟨some 2000000, some 3000000, true, true⟩ 2000000 0 3000000 rfl (by decide)
      (by constructor <;> norm_num) rfl (by norm_num [fee_reserve])⟩

/-- C4 counterexample: with tracked balance 0, threshold 1000,
detection-time fetch 3000 and transfer-time re-fetch 10000, a deposit is
detected and the detection-time transferable amount 3000 - 5000 is
non-positive, yet an adapter submission of 5000 lamports occurs: the
insufficiency test uses the balance re-fetched inside `transfer_funds`,
not the detection-time balance. -/
theorem c4_counterexample :
    (0 : Int) < 3000 ∧ (1000 : Int) ≤ 3000 ∧
    (3000 : Int) - fee_reserve ≤ 0 ∧
    outcomeSubmitted (check_wallet 1000 "rcv" [("w", 0)] "w"
      ⟨some 3000, some 10000, true, true⟩).2 = some 5000 ∧
    outcomeSubmitted (check_wallet 1000 "rcv" [("w", 0)] "w"
      ⟨some 3000, some 10000, true, true⟩).2 ≠ none := by
  refine ⟨by norm_num, by norm_num, by norm_num [fee_reserve], rfl, ?_⟩
  simp [check_wallet, dictGet, transfer_funds, fee_reserve, outcomeSubmitted,
    submittedAmount, transferResult]

/-- C4 amended: whenever a deposit is detected and the balance re-fetched
inside `transfer_funds` minus the fee reserve is non-positive, the
outcome is the insufficient-for-fee result, no adapter submission occurs,
and the tracker is still updated to the detection-time balance. -/
theorem c4_amended_insufficient (m : Int) (r : String) (t : Dict) (a : String)
    (env : WalletEnv) (current last bal : Int)
    (houter : env.outerFetch = some current) (hget : dictGet t a = some last)
    (hdep : last < current ∧ m ≤ current)
    (hinner : env.innerFetch = some bal) (hnp : bal - fee_reserve ≤ 0) :
    (check_wallet m r t a env).2 = .deposit .insufficientForFee ∧
    outcomeSubmitted (check_wallet m r t a env).2 = none ∧
    dictGet (check_wallet m r t a env).1 a = some current := by
  rw [check_wallet_eq_deposit m r houter hget hdep]
  refine ⟨?_, ?_, ?_⟩
  · simp [transfer_funds, hinner, hnp]
  · simp [outcomeSubmitted, transfer_funds, hinner, hnp, submittedAmount]
  · exact dictGet_dictSet_self _ a current

theorem c4_amended_witness :
    (some (3000 : Int) : Option Int) = some 3000 ∧
    dictGet [("w", (0 : Int))] "w" = some 0 ∧
    ((0 : Int) < 3000 ∧ (1000 : Int) ≤ 3000) ∧
    (some (3000 : Int) : Option Int) = some 3000 ∧
    (3000 : Int) - fee_reserve ≤ 0 ∧
    ((check_wallet 1000 "rcv" [("w", 0)] "w"
        ⟨some 3000, some 3000, true, true⟩).2 = .deposit .insufficientForFee ∧
    outcomeSubmitted (check_wallet 1000 "rcv" [("w", 0)] "w"
      ⟨some 3000, some 3000, true, true⟩).2 = none ∧
    dictGet (check_wallet 1000 "rcv" [("w", 0)] "w"
      ⟨some 3000, some 3000, true, true⟩).1 "w" = some 3000) :=
  ⟨rfl, by decide, by constructor <;> norm_num, rfl, by norm_num [fee_reserve],
    c4_amended_insufficient 1000 "rcv" [("w", 0)] "w"
      ⟨some 3000, some 3000, true, true⟩ 3000 0 3000 rfl (by decide)
      (by constructor <;> norm_num) rfl (by norm_num [fee_reserve])⟩

/-- C8 counterexample: after a failed transfer at balance 2000000 the
tracker holds 2000000, but a later cycle that fetches 1999999 — less than
or equal to that recorded value — still attempts a transfer, because an
intervening cycle lowered the tracked balance to 1000000: "no retry below
the cycle-n balance" fails once the balance dips and partially recovers. -/
theorem c8_counterexample :
    transferConsidered (check_wallet 1000000 "rcv" [("w", 0)] "w"
      ⟨some 2000000, some 2000000, false, true⟩).2 = true ∧
    (check_wallet 1000000 "rcv" [("w", 0)] "w"
      ⟨some 2000000, some 2000000, false, true⟩).2 =
        .deposit (.sent 1995000 "rcv" false) ∧
    dictGet (check_wallet 1000000 "rcv" [("w", 0)] "w"
      ⟨some 2000000, some 2000000, false, true⟩).1 "w" = some 2000000 ∧
    (1999999 : Int) ≤ 2000000 ∧
    transferConsidered (check_wallet 1000000 "rcv"
      (check_wallet 1000000 "rcv"
        (check_wallet 1000000 "rcv" [("w", 0)] "w"
          ⟨some 2000000, some 2000000, false, true⟩).1 "w"
        ⟨some 1000000, none, true, true⟩).1 "w"
      ⟨some 1999999, some 1999999, true, true⟩).2 = true := by
  refine ⟨rfl, ?_, by decide, by norm_num, rfl⟩
  simp [check_wallet, dictGet, transfer_funds, fee_reserve, transferResult]

/-- C8 amended: if a deposit is detected in cycle n and the transfer
fails, the tracker is still updated to the cycle-n balance, and a cycle
starting from that tracker state whose fetched balance does not exceed
the cycle-n balance detects no deposit and submits nothing; retrying
requires the observed balance to exceed the balance recorded at the start
of the retrying cycle, not the cycle-n balance for all later cycles. -/
theorem c8_amended_no_retry (m : Int) (r : String) (t : Dict) (a : String)
    (e1 e2 : WalletEnv) (c1 c2 last : Int)
    (hget : dictGet t a = some last) (h1 : e1.outerFetch = some c1)
    (hdep : last < c1 ∧ m ≤ c1)
    (hfail : transferResult (transfer_funds r e1) = false)
    (h2 : e2.outerFetch = some c2) (hle : c2 ≤ c1) :
    dictGet (check_wallet m r t a e1).1 a = some c1 ∧
    (check_wallet m r (check_wallet m r t a e1).1 a e2).2 = .noDeposit ∧
    outcomeSubmitted (check_wallet m r (check_wallet m r t a e1).1 a e2).2 = none := by
  have hfst : (check_wallet m r t a e1).1 = dictSet t a c1 := by
    rw [check_wallet_eq_deposit m r h1 hget hdep, hfail]
    simp
  have hget2 : dictGet (check_wallet m r t a e1).1 a = some c1 := by
    rw [hfst]; exact dictGet_dictSet_self t a c1
  have hnc : ¬(c1 < c2 ∧ m ≤ c2) := fun h => absurd hle (not_le.mpr h.1)
  rw [check_wallet_eq_noDeposit m r h2 hget2 hnc]
  exact ⟨hget2, rfl, rfl⟩

theorem c8_amended_witness :
    dictGet [("w", (0 : Int))] "w" = some 0 ∧
    (some (2000000 : Int) : Option Int) = some 2000000 ∧
    ((0 : Int) < 2000000 ∧ (1000000 : Int) ≤ 2000000) ∧
    transferResult (transfer_funds "rcv" ⟨some 2000000, some 2000000, false, true⟩) = false ∧
    (some (1500000 : Int) : Option Int) = some 1500000 ∧
    (1500000 : Int) ≤ 2000000 ∧
    (dictGet (check_wallet 1000000 "rcv" [("w", 0)] "w"
        ⟨some 2000000, some 2000000, false, true⟩).1 "w" = some 2000000 ∧
    (check_wallet 1000000 "rcv"
      (check_wallet 1000000 "rcv" [("w", 0)] "w"
        ⟨some 2000000, some 2000000, false, true⟩).1 "w"
      ⟨some 1500000, some 1500000, true, true⟩).2 = .noDeposit ∧
    outcomeSubmitted (check_wallet 1000000 "rcv"
      (check_wallet 1000000 "rcv" [("w", 0)] "w"
        ⟨some 2000000, some 2000000, false, true⟩).1 "w"
      ⟨some 1500000, some 1500000, true, true⟩).2 = none) :=
  ⟨by decide, rfl, by constructor <;> norm_num, by decide, rfl, by norm_num,
    c8_amended_no_retry 1000000 "rcv" [("w", 0)] "w"
      ⟨some 2000000, some 2000000, false, true⟩
      ⟨some 1500000, some 1500000, true, true⟩ 2000000 1500000 0
      (by decide) rfl (by constructor <;> norm_num) (by decide) rfl (by norm_num)⟩

theorem check_wallet_single_update_eq (m : Int) (r : String) (t : Dict)
    (a : String) (e : WalletEnv) :
    check_wallet_single_update m r t a e = check_wallet m r t a e := by
  cases he : e.outerFetch with
  | none => simp [check_wallet, check_wallet_single_update, he]
  | some c =>
    cases hg : dictGet t a with
    | none => simp [check_wallet, check_wallet_single_update, he, hg]
    | some last =>
      by_cases hcond : last < c ∧ m ≤ c
      · simp only [check_wallet, check_wallet_single_update, he, hg, if_pos hcond]
        cases htr : transferResult (transfer_funds r e) with
        | true => simp [htr, dictSet_dictSet_same]
        | false => simp [htr]
      · simp [check_wallet, check_wallet_single_update, he, hg, hcond]

/-- C9: the tracker assignment inside the `if success:` branch is
redundant: the cycle built from the per-wallet evaluation with that
assignment removed (only the unconditional post-evaluation update kept)
is equal, as a function of every tracker state and every cycle
environment, to the original — same final tracker and same outcomes. -/
theorem c9_branch_assignment_redundant (m : Int) (r : String) (t : Dict)
    (ws : List (String × WalletEnv)) :
    check_and_transfer m r t ws = check_and_transfer_single_update m r t ws := by
  induction ws generalizing t with
  | nil => rfl
  | cons p ws ih =>
    obtain ⟨a, e⟩ := p
    simp only [check_and_transfer, check_and_transfer_single_update,
      check_wallet_single_update_eq, ih]

theorem dictKeys_check_wallet (m : Int) (r : String) (t : Dict) (a : String)
    (e : WalletEnv) : dictKeys (check_wallet m r t a e).1 = dictKeys t := by
  cases he : e.outerFetch with
  | none => rw [check_wallet_eq_fetchError m r t a he]
  | some c =>
    cases hg : dictGet t a with
    | none => rw [check_wallet_eq_keyError m r he hg]
    | some last =>
      by_cases hcond : last < c ∧ m ≤ c
      · rw [check_wallet_eq_deposit m r he hg hcond]
        cases htr : transferResult (transfer_funds r e) with
        | true =>
          simp only [htr, if_true]
          rw [dictKeys_dictSet (dictSet t a c) (dictGet_dictSet_self t a c) c,
            dictKeys_dictSet t hg c]
        | false =>
          simp only [htr, if_false]
          exact dictKeys_dictSet t hg c
      · rw [check_wallet_eq_noDeposit m r he hg hcond]
        exact dictKeys_dictSet t hg c

theorem dictKeys_check_and_transfer (m : Int) (r : String) (t : Dict)
    (ws : List (String × WalletEnv)) :
    dictKeys (check_and_transfer m r t ws).1 = dictKeys t := by
  induction ws generalizing t with
  | nil => rfl
  | cons p ws ih =>
    obtain ⟨a, e⟩ := p
    simp only [check_and_transfer]
    rw [ih, dictKeys_check_wallet]

theorem dictKeys_run_cycles (m : Int) (r : String) (t : Dict)
    (cs : List (List (String × WalletEnv))) :
    dictKeys (run_cycles m r t cs) = dictKeys t := by
  induction cs generalizing t with
  | nil => rfl
  | cons c cs ih =>
    simp only [run_cycles]
    rw [ih, dictKeys_check_and_transfer]

/-- C10: starting from the tracker built at startup over the monitored
addresses, the key list of the balance tracker after any number of poll
cycles — over arbitrary cycle environments, even mentioning other
addresses — is exactly the monitored address list: assignments only hit
existing keys and no entry is ever added or deleted. -/
theorem c10_tracker_keys_fixed (m : Int) (r : String) (addrs : List String)
    (cycles : List (List (String × WalletEnv))) :
    dictKeys (run_cycles m r (init_balances addrs) cycles) = addrs := by
  rw [dictKeys_run_cycles]
  simp only [init_balances, dictKeys, List.map_map]
  exact List.map_id addrs

theorem check_wallet_fst_get_ne (m : Int) (r : String) (t : Dict) {a j : String}
    (e : WalletEnv) (h : j ≠ a) :
    dictGet (check_wallet m r t a e).1 j = dictGet t j := by
  have ha : a ≠ j := Ne.symm h
  cases he : e.outerFetch with
  | none => rw [check_wallet_eq_fetchError m r t a he]
  | some c =>
    cases hg : dictGet t a with
    | none => rw [check_wallet_eq_keyError m r he hg]
    | some last =>
      by_cases hcond : last < c ∧ m ≤ c
      · rw [check_wallet_eq_deposit m r he hg hcond]
        cases htr : transferResult (transfer_funds r e) with
        | true =>
          simp only [htr, if_true]
          rw [dictGet_dictSet_ne _ ha, dictGet_dictSet_ne _ ha]
        | false =>
          simp only [htr, if_false]
          exact dictGet_dictSet_ne t ha c
      · rw [check_wallet_eq_noDeposit m r he hg hcond]
        exact dictGet_dictSet_ne t ha c

theorem check_wallet_outcome_congr (m : Int) (r : String) {t u : Dict}
    (a : String) (e : WalletEnv) (h : dictGet t a = dictGet u a) :
    (check_wallet m r t a e).2 = (check_wallet m r u a e).2 := by
  cases he : e.outerFetch with
  | none =>
    rw [check_wallet_eq_fetchError m r t a he, check_wallet_eq_fetchError m r u a he]
  | some c =>
    cases hg : dictGet t a with
    | none =>
      rw [check_wallet_eq_keyError m r he hg,
        check_wallet_eq_keyError m r he (h ▸ hg)]
    | some last =>
      by_cases hcond : last < c ∧ m ≤ c
      · rw [check_wallet_eq_deposit m r he hg hcond,
          check_wallet_eq_deposit m r he (h ▸ hg) hcond]
      · rw [check_wallet_eq_noDeposit m r he hg hcond,
          check_wallet_eq_noDeposit m r he (h ▸ hg) hcond]

theorem check_wallet_fst_get_self_congr (m : Int) (r : String) {t u : Dict}
    (a : String) (e : WalletEnv) (h : dictGet t a = dictGet u a) :
    dictGet (check_wallet m r t a e).1 a = dictGet (check_wallet m r u a e).1 a := by
  cases he : e.outerFetch with
  | none =>
    rw [check_wallet_eq_fetchError m r t a he, check_wallet_eq_fetchError m r u a he]
    exact h
  | some c =>
    cases hg : dictGet t a with
    | none =>
      rw [check_wallet_eq_keyError m r he hg,
        check_wallet_eq_keyError m r he (h ▸ hg)]
      exact h
    | some last =>
      by_cases hcond : last < c ∧ m ≤ c
      · rw [check_wallet_eq_deposit m r he hg hcond,
          check_wallet_eq_deposit m r he (h ▸ hg) hcond]
        rw [dictGet_dictSet_self, dictGet_dictSet_self]
      · rw [check_wallet_eq_noDeposit m r he hg hcond,
          check_wallet_eq_noDeposit m r he (h ▸ hg) hcond]
        rw [dictGet_dictSet_self, dictGet_dictSet_self]

/-- Trackers that agree on every address other than `A`. -/
def agreesOff (A : String) (t u : Dict) : Prop :=
  ∀ k, k ≠ A → dictGet t k = dictGet u k

theorem agreesOff_refl (A : String) (t : Dict) : agreesOff A t t :=
  fun _ _ => rfl

theorem agreesOff_check_wallet_own (m : Int) (r : String) {A : String} {t u : Dict}
    (h : agreesOff A t u) (eA eA' : WalletEnv) :
    agreesOff A (check_wallet m r t A eA).1 (check_wallet m r u A eA').1 := by
  intro k hk
  rw [check_wallet_fst_get_ne m r t eA hk, check_wallet_fst_get_ne m r u eA' hk]
  exact h k hk

theorem agreesOff_check_wallet_other (m : Int) (r : String) {A : String} {t u : Dict}
    (h : agreesOff A t u) {a : String} (ha : a ≠ A) (e : WalletEnv) :
    agreesOff A (check_wallet m r t a e).1 (check_wallet m r u a e).1 := by
  intro k hk
  by_cases hka : k = a
  · subst hka
    exact check_wallet_fst_get_self_congr m r k e (h k ha)
  · rw [check_wallet_fst_get_ne m r t e hka, check_wallet_fst_get_ne m r u e hka]
    exact h k hk

theorem outcomesFor_cons (B a : String) (o : SweepOutcome)
    (l : List (String × SweepOutcome)) :
    outcomesFor B ((a, o) :: l) =
      if a = B then o :: outcomesFor B l else outcomesFor B l := by
  by_cases h : a = B
  · simp [outcomesFor, List.filter_cons, h]
  · simp [outcomesFor, List.filter_cons, h]

theorem outcomesFor_append (B : String) (l1 l2 : List (String × SweepOutcome)) :
    outcomesFor B (l1 ++ l2) = outcomesFor B l1 ++ outcomesFor B l2 := by
  simp [outcomesFor, List.filter_append]

theorem agreesOff_check_and_transfer (m : Int) (r : String) {A B : String}
    (hB : B ≠ A) (ws : List (String × WalletEnv)) :
    ∀ {t u : Dict}, agreesOff A t u →
      dictGet (check_and_transfer m r t ws).1 B =
        dictGet (check_and_transfer m r u ws).1 B ∧
      outcomesFor B (check_and_transfer m r t ws).2 =
        outcomesFor B (check_and_transfer m r u ws).2 := by
  induction ws with
  | nil => intro t u h; exact ⟨h B hB, rfl⟩
  | cons p ws ih =>
    obtain ⟨a, e⟩ := p
    intro t u h
    simp only [check_and_transfer]
    by_cases ha : a = A
    · subst ha
      have hrest := ih (agreesOff_check_wallet_own m r h e e)
      refine ⟨hrest.1, ?_⟩
      rw [outcomesFor_cons, outcomesFor_cons, if_neg (fun hc => hB hc.symm),
        if_neg (fun hc => hB hc.symm)]
      exact hrest.2
    · have hrest := ih (agreesOff_check_wallet_other m r h ha e)
      refine ⟨hrest.1, ?_⟩
      rw [outcomesFor_cons, outcomesFor_cons,
        check_wallet_outcome_congr m r a e (h a ha)]
      by_cases hab : a = B
      · rw [if_pos hab, if_pos hab, hrest.2]
      · rw [if_neg hab, if_neg hab]
        exact hrest.2

theorem check_and_transfer_append (m : Int) (r : String) (t : Dict)
    (xs ys : List (String × WalletEnv)) :
    check_and_transfer m r t (xs ++ ys) =
      ((check_and_transfer m r (check_and_transfer m r t xs).1 ys).1,
        (check_and_transfer m r t xs).2 ++
          (check_and_transfer m r (check_and_transfer m r t xs).1 ys).2) := by
  induction xs generalizing t with
  | nil => simp [check_and_transfer]
  | cons p xs ih =>
    obtain ⟨a, e⟩ := p
    simp only [List.cons_append, check_and_transfer]
    rw [List.append_eq, ih]

/-- C5: per-wallet fault isolation — the environment seen by wallet A
(including any combination of adapter failures: fetch exception, send
exception, confirmation exception) has no effect on a different wallet
B evaluated in the same cycle: B's final tracker entry and B's recorded
outcomes are identical whatever happens to A, and every per-wallet error
is absorbed into that wallet's own outcome rather than propagating. -/
theorem c5_fault_isolation (m : Int) (r : String) (t : Dict)
    (pre post : List (String × WalletEnv)) (A B : String)
    (envA envA' : WalletEnv) (hAB : B ≠ A) :
    dictGet (check_and_transfer m r t (pre ++ (A, envA) :: post)).1 B =
      dictGet (check_and_transfer m r t (pre ++ (A, envA') :: post)).1 B ∧
    outcomesFor B (check_and_transfer m r t (pre ++ (A, envA) :: post)).2 =
      outcomesFor B (check_and_transfer m r t (pre ++ (A, envA') :: post)).2 := by
  rw [check_and_transfer_append m r t pre ((A, envA) :: post),
    check_and_transfer_append m r t pre ((A, envA') :: post)]
  simp only [check_and_transfer]
  have hA : agreesOff A
      (check_wallet m r (check_and_transfer m r t pre).1 A envA).1
      (check_wallet m r (check_and_transfer m r t pre).1 A envA').1 :=
    agreesOff_check_wallet_own m r (agreesOff_refl A _) envA envA'
  have hrest := agreesOff_check_and_transfer m r hAB post hA
  refine ⟨hrest.1, ?_⟩
  rw [outcomesFor_append, outcomesFor_append, outcomesFor_cons, outcomesFor_cons,
    if_neg (fun hc => hAB hc.symm), if_neg (fun hc => hAB hc.symm), hrest.2]

theorem c5_witness :
    ("b" : String) ≠ "a" ∧
    (dictGet (check_and_transfer 1000000 "rcv" [("a", (0 : Int)), ("b", (0 : Int))]
        ([] ++ ("a", WalletEnv.mk (some 2000000) (some 2000000) false true) ::
          [("b", WalletEnv.mk (some 3000000) (some 3000000) true true)])).1 "b" =
      dictGet (check_and_transfer 1000000 "rcv" [("a", (0 : Int)), ("b", (0 : Int))]
        ([] ++ ("a", WalletEnv.mk none none true true) ::
          [("b", WalletEnv.mk (some 3000000) (some 3000000) true true)])).1 "b" ∧
    outcomesFor "b" (check_and_transfer 1000000 "rcv" [("a", (0 : Int)), ("b", (0 : Int))]
        ([] ++ ("a", WalletEnv.mk (some 2000000) (some 2000000) false true) ::
          [("b", WalletEnv.mk (some 3000000) (some 3000000) true true)])).2 =
      outcomesFor "b" (check_and_transfer 1000000 "rcv" [("a", (0 : Int)), ("b", (0 : Int))]
        ([] ++ ("a", WalletEnv.mk none none true true) ::
          [("b", WalletEnv.mk (some 3000000) (some 3000000) true true)])).2) :=
  ⟨by decide,
    c5_fault_isolation 1000000 "rcv" [("a", 0), ("b", 0)] []
      [("b", WalletEnv.mk (some 3000000) (some 3000000) true true)] "a" "b"
      (WalletEnv.mk (some 2000000) (some 2000000) false true)
      (WalletEnv.mk none none true true) (by decide)⟩

theorem c7_witness :
    dictGet [("w", (500000 : Int))] "w" = some 500000 ∧
    (WalletEnv.mk (some 500000) none true true).outerFetch = some 500000 ∧
    (WalletEnv.mk (some 500000) (some 500000) true true).outerFetch = some 500000 ∧
    ((check_wallet 1000000 "rcv" [("w", 500000)] "w"
        ⟨some 500000, none, true, true⟩).2 = .noDeposit ∧
    (check_wallet 1000000 "rcv"
      (check_wallet 1000000 "rcv" [("w", 500000)] "w"
        ⟨some 500000, none, true, true⟩).1 "w"
      ⟨some 500000, some 500000, true, true⟩).2 = .noDeposit ∧
    outcomeSubmitted (check_wallet 1000000 "rcv" [("w", 500000)] "w"
      ⟨some 500000, none, true, true⟩).2 = none ∧
    outcomeSubmitted (check_wallet 1000000 "rcv"
      (check_wallet 1000000 "rcv" [("w", 500000)] "w"
        ⟨some 500000, none, true, true⟩).1 "w"
      ⟨some 500000, some 500000, true, true⟩).2 = none) :=
  ⟨by decide, rfl, rfl,
    c7_idempotent_unchanged_balance 1000000 "rcv" [("w", 500000)] "w"
      ⟨some 500000, none, true, true⟩ ⟨some 500000, some 500000, true, true⟩
      500000 (by decide) rfl rfl⟩
